import Mathlib

/-!
Shallow embedding of `src/list_not_found_ami_snapshot.py`, the orphan-snapshot
reconciliation tool, together with theorems settling the specification claims.

Modelling conventions:
* Python `dict.get(key, default)` on an optional field becomes `Option.getD`.
* Python sets of strings become `Finset String`; iteration over a Python set
  (whose order is arbitrary) is modelled by the sorted enumeration
  `setIterList`, which only fixes one admissible order.
* The injected boto3 client is modelled by the data it can return: the pages
  produced by the two paginators and whether the `create_tags` call fails.
* Python exceptions become an explicit error type; `raise Exception(msg) from e`
  becomes the constructor `PyError.wrapped msg e`.
-/

/-- Python exception values: a primitive error, or `raise Exception(msg) from e`. -/
inductive PyError where
  | raw : String → PyError
  | wrapped : String → PyError → PyError
deriving DecidableEq, Repr

/-- A snapshot record as returned by `describe_snapshots`: only the two fields
the program reads, each possibly absent. -/
structure SnapshotRecord where
  snapshotId : Option String
  description : Option String
deriving DecidableEq, Repr

/-- The nested `Ebs` object of a block-device mapping. -/
structure EbsInfo where
  snapshotId : Option String
deriving DecidableEq, Repr

/-- One entry of an image's `BlockDeviceMappings` list; `ebs = none` models a
mapping with no `Ebs` key (no EBS-backed device). -/
structure BlockDeviceMapping where
  ebs : Option EbsInfo
deriving DecidableEq, Repr

/-- An image record as returned by `describe_images`: only the field the
program reads. -/
structure ImageRecord where
  blockDeviceMappings : Option (List BlockDeviceMapping)
deriving DecidableEq, Repr

/-- Python substring containment `sub in s` (source line 86). -/
def strContains (s sub : String) : Bool :=
  (List.range (s.data.length + 1)).any fun i => sub.data.isPrefixOf (s.data.drop i)

/-- Body of the record loop of `list_snapshot` (source lines 82-88): read the
description (default `""`), and if it contains the marker insert the record's
id (default `""`) into the set. -/
def snapStep (snapshots_set : Finset String) (snapshot : SnapshotRecord) : Finset String :=
  let snapshot_description := snapshot.description.getD ""
  if strContains snapshot_description "Created by CreateImage" then
    insert (snapshot.snapshotId.getD "") snapshots_set
  else
    snapshots_set

/-- `list_snapshot` (source lines 76-90): fold `snapStep` over every record of
every page returned by the `describe_snapshots` paginator. -/
def list_snapshot (pages : List (List SnapshotRecord)) : Finset String :=
  pages.foldl (fun snapshots_set page => page.foldl snapStep snapshots_set) ∅

/-- Body of the block-device loop of `list_ami` (source lines 100-103): read the
`Ebs` object (default empty), read its `SnapshotId` (default `""`), and insert
it into the set unconditionally. -/
def blockStep (amis_set : Finset String) (block : BlockDeviceMapping) : Finset String :=
  let ebs := block.ebs.getD { snapshotId := none }
  let snapshot_id := ebs.snapshotId.getD ""
  insert snapshot_id amis_set

/-- Body of the image loop of `list_ami` (source lines 99-103): fold over the
image's block-device mappings (default `[]`). -/
def amiStep (amis_set : Finset String) (ami : ImageRecord) : Finset String :=
  (ami.blockDeviceMappings.getD []).foldl blockStep amis_set

/-- `list_ami` (source lines 93-105): fold `amiStep` over every image of every
page returned by the `describe_images` paginator. -/
def list_ami (pages : List (List ImageRecord)) : Finset String :=
  pages.foldl (fun amis_set page => page.foldl amiStep amis_set) ∅

/-- A fold whose step at most inserts elements characterised by `P` has the
expected membership characterisation. -/
theorem mem_foldl_step {α : Type} (step : Finset String → α → Finset String)
    (P : α → String → Prop)
    (hstep : ∀ acc x s, s ∈ step acc x ↔ s ∈ acc ∨ P x s) :
    ∀ (l : List α) (acc : Finset String) (s : String),
      s ∈ l.foldl step acc ↔ s ∈ acc ∨ ∃ x ∈ l, P x s := by
  intro l
  induction l with
  | nil => simp
  | cons x xs ih =>
    intro acc s
    rw [List.foldl_cons, ih, hstep]
    constructor
    · rintro ((h | h) | ⟨y, hy, h⟩)
      · exact Or.inl h
      · exact Or.inr ⟨x, List.mem_cons_self x xs, h⟩
      · exact Or.inr ⟨y, List.mem_cons_of_mem x hy, h⟩
    · rintro (h | ⟨y, hy, h⟩)
      · exact Or.inl (Or.inl h)
      · rcases List.mem_cons.mp hy with rfl | hy
        · exact Or.inl (Or.inr h)
        · exact Or.inr ⟨y, hy, h⟩

/-- Membership characterisation of one `snapStep`. -/
theorem mem_snapStep (acc : Finset String) (r : SnapshotRecord) (s : String) :
    s ∈ snapStep acc r ↔
      s ∈ acc ∨
        (strContains (r.description.getD "") "Created by CreateImage" = true ∧
          r.snapshotId.getD "" = s) := by
  unfold snapStep
  by_cases h : strContains (r.description.getD "") "Created by CreateImage"
  · simp [h, Finset.mem_insert, eq_comm, or_comm]
  · simp [h]

/-- Membership characterisation of one `blockStep`. -/
theorem mem_blockStep (acc : Finset String) (b : BlockDeviceMapping) (s : String) :
    s ∈ blockStep acc b ↔
      s ∈ acc ∨ (b.ebs.getD { snapshotId := none }).snapshotId.getD "" = s := by
  unfold blockStep
  simp [Finset.mem_insert, eq_comm, or_comm]

/-- Membership characterisation of one `amiStep`. -/
theorem mem_amiStep (acc : Finset String) (ami : ImageRecord) (s : String) :
    s ∈ amiStep acc ami ↔
      s ∈ acc ∨
        ∃ b ∈ ami.blockDeviceMappings.getD [],
          (b.ebs.getD { snapshotId := none }).snapshotId.getD "" = s := by
  unfold amiStep
  exact mem_foldl_step blockStep _ mem_blockStep _ acc s

/-- Membership in the output of `list_snapshot`: exactly the (defaulted) ids of
records on some page whose (defaulted) description contains the marker. -/
theorem mem_list_snapshot (pages : List (List SnapshotRecord)) (s : String) :
    s ∈ list_snapshot pages ↔
      ∃ page ∈ pages, ∃ r ∈ page,
        strContains (r.description.getD "") "Created by CreateImage" = true ∧
          r.snapshotId.getD "" = s := by
  unfold list_snapshot
  rw [mem_foldl_step _
    (fun page s => ∃ r ∈ page,
      strContains (r.description.getD "") "Created by CreateImage" = true ∧
        r.snapshotId.getD "" = s)
    (fun acc page s => mem_foldl_step snapStep _ mem_snapStep page acc s)]
  simp

/-- Membership in the output of `list_ami`: exactly the (defaulted) nested
snapshot ids of block-device mappings of images on some page. -/
theorem mem_list_ami (pages : List (List ImageRecord)) (s : String) :
    s ∈ list_ami pages ↔
      ∃ page ∈ pages, ∃ ami ∈ page,
        ∃ b ∈ ami.blockDeviceMappings.getD [],
          (b.ebs.getD { snapshotId := none }).snapshotId.getD "" = s := by
  unfold list_ami
  rw [mem_foldl_step _
    (fun page s => ∃ ami ∈ page,
      ∃ b ∈ ami.blockDeviceMappings.getD [],
        (b.ebs.getD { snapshotId := none }).snapshotId.getD "" = s)
    (fun acc page s => mem_foldl_step amiStep _ mem_amiStep page acc s)]
  simp

/-- Decidable equality for `Except`, used to evaluate run results on concrete
inputs. -/
instance {ε α : Type} [DecidableEq ε] [DecidableEq α] : DecidableEq (Except ε α) := fun a b =>
  match a, b with
  | Except.ok a, Except.ok b => decidable_of_iff (a = b) (by simp)
  | Except.ok _, Except.error _ => Decidable.isFalse (by simp)
  | Except.error _, Except.ok _ => Decidable.isFalse (by simp)
  | Except.error e, Except.error f => decidable_of_iff (e = f) (by simp)

/-- The injected boto3 EC2 client, modelled by the observable outcomes of the
three capabilities the program uses: the full page sequence of each paginator
(or the terminal error after exhausted retries), and whether `create_tags`
fails. -/
structure Ec2Client where
  describeSnapshotsPages : Except PyError (List (List SnapshotRecord))
  describeImagesPages : Except PyError (List (List ImageRecord))
  createTagsError : Option PyError
deriving DecidableEq

/-- Local filesystem state relevant to the run: the current content of the
export file (as a list of lines, `none` when absent), and an environment
choice of whether/where a `file.write` call fails (index of the failing write
and the error it raises). -/
structure FsState where
  exportFile : Option (List String)
  writeFail : Option (Nat × PyError)
deriving DecidableEq, Repr

/-- Observable side effects of a run, in order of occurrence. -/
inductive Event where
  | createTags (resources : List String) (tags : List (String × String)) : Event
  | fileWrite (lines : List String) : Event
deriving DecidableEq, Repr

/-- A concrete linear order on strings (lexicographic on the character lists),
used only to fix one admissible iteration order for Python sets, whose real
iteration order is arbitrary. -/
def strLe (a b : String) : Prop := a.data ≤ b.data

instance : DecidableRel strLe := fun a b => inferInstanceAs (Decidable (a.data ≤ b.data))

instance : IsTrans String strLe := ⟨fun _ _ _ => le_trans⟩

instance : IsAntisymm String strLe :=
  ⟨fun a b h h' => by cases a; cases b; exact congrArg String.mk (le_antisymm h h')⟩

instance : IsTotal String strLe := ⟨fun a b => le_total a.data b.data⟩

/-- One admissible iteration order of a Python set of strings (Python iterates
sets in an arbitrary, implementation-defined order; all claims proved below
are order-insensitive). -/
def setIterList (s : Finset String) : List String :=
  Quot.liftOn s.val (fun l => List.insertionSort strLe l) fun a b h =>
    List.eq_of_perm_of_sorted
      (((List.perm_insertionSort _ a).trans h).trans (List.perm_insertionSort _ b).symm)
      (List.sorted_insertionSort _ a) (List.sorted_insertionSort _ b)

/-- The enumeration of a set carries exactly the set's elements, once each. -/
theorem coe_setIterList (s : Finset String) : (setIterList s : Multiset String) = s.val := by
  rcases s with ⟨val, nd⟩
  induction val using Quot.inductionOn with
  | h l => exact Quot.sound (List.perm_insertionSort _ l)

/-- Membership in the enumeration of a set is membership in the set. -/
theorem mem_setIterList (s : Finset String) (x : String) :
    x ∈ setIterList s ↔ x ∈ s := by
  rw [← Multiset.mem_coe, coe_setIterList]
  exact Iff.rfl

/-- `grant_tag` (source lines 108-113): one batched `create_tags` call applying
the tag `NotAttachedAMI=True` to all ids; returns the call's error, if any,
together with the provider-mutation event it attempts. -/
def grant_tag (ec2_client : Ec2Client) (snapshot_ids : List String) :
    Option PyError × Event :=
  (ec2_client.createTagsError,
    Event.createTags snapshot_ids [("NotAttachedAMI", "True")])

/-- The write loop of `export_text` (source lines 120-121): write the pending
ids one per line, stopping with an error when the environment makes a write
fail. Returns the error (if any) and the lines actually written. -/
def writeLoop (written : List String) (pending : List String)
    (failPlan : Option (Nat × PyError)) : Option PyError × List String :=
  match pending with
  | [] => (none, written)
  | snapshot_id :: rest =>
    match failPlan with
    | some (0, e) => (some e, written)
    | some (k + 1, e) => writeLoop (written ++ [snapshot_id]) rest (some (k, e))
    | none => writeLoop (written ++ [snapshot_id]) rest none

/-- Outcome of an `export_text` call. -/
structure ExportOutcome where
  error : Option PyError
  fileLines : List String
  handleReleased : Bool
deriving DecidableEq, Repr

/-- `export_text` (source lines 116-121): open the export file in mode `"w"`
(truncating: the previous content `prev` is discarded), write one id per line,
and — by the `with` statement — release the handle on every exit path,
including a failing write. -/
def export_text (_prev : Option (List String)) (failPlan : Option (Nat × PyError))
    (unassociated_snapshots : Finset String) : ExportOutcome :=
  let opened : List String := []
  let result := writeLoop opened (setIterList unassociated_snapshots) failPlan
  { error := result.1, fileLines := result.2, handleReleased := true }

/-- The message of the single `except` wrapper in `main` (source line 139). -/
def mainMsg : String := "メイン関数エラー"

/-- `reconcile` is the pure reconciliation of `main` (source line 131):
`snapshots_set - amis_set` on Python sets. -/
def reconcile (snapshots_set amis_set : Finset String) : Finset String :=
  snapshots_set \ amis_set

/-- Result of a run of `main`: the returned set or the raised (wrapped) error,
the provider/file side effects in order, and the final export-file content. -/
structure RunResult where
  result : Except PyError (Finset String)
  events : List Event
  exportFile : Option (List String)
deriving DecidableEq

namespace Script

/-- `main` (source lines 124-141): list snapshots, list images, reconcile; if
the orphan set is non-empty, tag then export. Any exception raised inside the
`try` block is wrapped as `Exception("メイン関数エラー") from e` and re-raised,
so on any failure no set is returned. -/
def main (ec2_client : Ec2Client) (fs : FsState) : RunResult :=
  match ec2_client.describeSnapshotsPages with
  | Except.error e =>
    { result := Except.error (PyError.wrapped mainMsg e), events := [],
      exportFile := fs.exportFile }
  | Except.ok snapshotPages =>
    match ec2_client.describeImagesPages with
    | Except.error e =>
      { result := Except.error (PyError.wrapped mainMsg e), events := [],
        exportFile := fs.exportFile }
    | Except.ok imagePages =>
      let snapshots_set := list_snapshot snapshotPages
      let amis_set := list_ami imagePages
      let unassociated_snapshots := reconcile snapshots_set amis_set
      if unassociated_snapshots = ∅ then
        { result := Except.ok unassociated_snapshots, events := [],
          exportFile := fs.exportFile }
      else
        let ids := setIterList unassociated_snapshots
        let tagged := grant_tag ec2_client ids
        match tagged.1 with
        | some e =>
          { result := Except.error (PyError.wrapped mainMsg e),
            events := [tagged.2], exportFile := fs.exportFile }
        | none =>
          let out := export_text fs.exportFile fs.writeFail unassociated_snapshots
          match out.error with
          | some e =>
            { result := Except.error (PyError.wrapped mainMsg e),
              events := [tagged.2, Event.fileWrite out.fileLines],
              exportFile := some out.fileLines }
          | none =>
            { result := Except.ok unassociated_snapshots,
              events := [tagged.2, Event.fileWrite out.fileLines],
              exportFile := some out.fileLines }

end Script

/-- Flattened form of the `list_snapshot` membership characterisation. -/
theorem mem_list_snapshot_flatten (pages : List (List SnapshotRecord)) (s : String) :
    s ∈ list_snapshot pages ↔
      ∃ r ∈ pages.flatten,
        strContains (r.description.getD "") "Created by CreateImage" = true ∧
          r.snapshotId.getD "" = s := by
  rw [mem_list_snapshot]
  constructor
  · rintro ⟨page, hp, r, hr, h⟩
    exact ⟨r, List.mem_flatten.mpr ⟨page, hp, hr⟩, h⟩
  · rintro ⟨r, hr, h⟩
    rcases List.mem_flatten.mp hr with ⟨page, hp, hr⟩
    exact ⟨page, hp, r, hr, h⟩

/-- Flattened form of the `list_ami` membership characterisation. -/
theorem mem_list_ami_flatten (pages : List (List ImageRecord)) (s : String) :
    s ∈ list_ami pages ↔
      ∃ ami ∈ pages.flatten, ∃ b ∈ ami.blockDeviceMappings.getD [],
        (b.ebs.getD { snapshotId := none }).snapshotId.getD "" = s := by
  rw [mem_list_ami]
  constructor
  · rintro ⟨page, hp, ami, ha, h⟩
    exact ⟨ami, List.mem_flatten.mpr ⟨page, hp, ha⟩, h⟩
  · rintro ⟨ami, ha, h⟩
    rcases List.mem_flatten.mp ha with ⟨page, hp, ha⟩
    exact ⟨page, hp, ami, ha, h⟩

/-- A failure-free write loop writes every pending line, in order. -/
theorem writeLoop_none (pending : List String) :
    ∀ written : List String, writeLoop written pending none = (none, written ++ pending) := by
  induction pending with
  | nil => intro written; simp [writeLoop]
  | cons x xs ih => intro written; rw [writeLoop, ih]; simp

/-- The write loop only ever writes lines it was asked to write. -/
theorem writeLoop_mem (pending : List String) :
    ∀ (written : List String) (plan : Option (Nat × PyError)) (x : String),
      x ∈ (writeLoop written pending plan).2 → x ∈ written ∨ x ∈ pending := by
  induction pending with
  | nil =>
    intro written plan x h
    exact Or.inl (by simpa [writeLoop] using h)
  | cons y ys ih =>
    intro written plan x h
    rcases plan with - | ⟨k, e⟩
    · rcases ih (written ++ [y]) none x (by simpa [writeLoop] using h) with hw | hp
      · rcases List.mem_append.mp hw with hw | hw
        · exact Or.inl hw
        · exact Or.inr (by simpa using Or.inl (List.mem_singleton.mp hw))
      · exact Or.inr (List.mem_cons_of_mem y hp)
    · match k with
      | 0 => exact Or.inl (by simpa [writeLoop] using h)
      | k + 1 =>
        rcases ih (written ++ [y]) (some (k, e)) x (by simpa [writeLoop] using h) with hw | hp
        · rcases List.mem_append.mp hw with hw | hw
          · exact Or.inl hw
          · exact Or.inr (by simpa using Or.inl (List.mem_singleton.mp hw))
        · exact Or.inr (List.mem_cons_of_mem y hp)

namespace Script

/-- A failed snapshot enumeration aborts the run with the wrapped error and no
side effects. -/
theorem main_snap_error (e : PyError) (cip : Except PyError (List (List ImageRecord)))
    (cte : Option PyError) (fs : FsState) :
    main ⟨Except.error e, cip, cte⟩ fs =
      { result := Except.error (PyError.wrapped mainMsg e), events := [],
        exportFile := fs.exportFile } := rfl

/-- A failed image enumeration aborts the run with the wrapped error and no
side effects. -/
theorem main_img_error (sp : List (List SnapshotRecord)) (e : PyError)
    (cte : Option PyError) (fs : FsState) :
    main ⟨Except.ok sp, Except.error e, cte⟩ fs =
      { result := Except.error (PyError.wrapped mainMsg e), events := [],
        exportFile := fs.exportFile } := rfl

/-- With both enumerations succeeding and an empty orphan set, the run is a
no-op returning the (empty) orphan set. -/
theorem main_empty (sp : List (List SnapshotRecord)) (ip : List (List ImageRecord))
    (cte : Option PyError) (fs : FsState)
    (h : reconcile (list_snapshot sp) (list_ami ip) = ∅) :
    main ⟨Except.ok sp, Except.ok ip, cte⟩ fs =
      { result := Except.ok (reconcile (list_snapshot sp) (list_ami ip)), events := [],
        exportFile := fs.exportFile } := by
  simp [main, h]

/-- With a non-empty orphan set and a failing `create_tags`, the run attempts
exactly the tag call and aborts with the wrapped error; the file is untouched. -/
theorem main_tag_error (sp : List (List SnapshotRecord)) (ip : List (List ImageRecord))
    (e : PyError) (fs : FsState)
    (h : reconcile (list_snapshot sp) (list_ami ip) ≠ ∅) :
    main ⟨Except.ok sp, Except.ok ip, some e⟩ fs =
      { result := Except.error (PyError.wrapped mainMsg e),
        events := [Event.createTags (setIterList (reconcile (list_snapshot sp) (list_ami ip)))
          [("NotAttachedAMI", "True")]],
        exportFile := fs.exportFile } := by
  simp only [main, if_neg h, grant_tag]

/-- With a non-empty orphan set and a succeeding `create_tags`, the run issues
the tag call, then performs the export, whose outcome decides the result. -/
theorem main_tag_ok (sp : List (List SnapshotRecord)) (ip : List (List ImageRecord))
    (fs : FsState)
    (h : reconcile (list_snapshot sp) (list_ami ip) ≠ ∅) :
    main ⟨Except.ok sp, Except.ok ip, none⟩ fs =
      { result :=
          match (export_text fs.exportFile fs.writeFail
              (reconcile (list_snapshot sp) (list_ami ip))).error with
          | some e => Except.error (PyError.wrapped mainMsg e)
          | none => Except.ok (reconcile (list_snapshot sp) (list_ami ip)),
        events := [Event.createTags (setIterList (reconcile (list_snapshot sp) (list_ami ip)))
            [("NotAttachedAMI", "True")],
          Event.fileWrite (export_text fs.exportFile fs.writeFail
            (reconcile (list_snapshot sp) (list_ami ip))).fileLines],
        exportFile := some (export_text fs.exportFile fs.writeFail
          (reconcile (list_snapshot sp) (list_ami ip))).fileLines } := by
  cases hout : (export_text fs.exportFile fs.writeFail
      (reconcile (list_snapshot sp) (list_ami ip))).error with
  | none => simp only [main, if_neg h, grant_tag, hout]
  | some e => simp only [main, if_neg h, grant_tag, hout]

end Script

namespace Script

/-- Rewriting the client to its constructor form once both listings succeed. -/
theorem main_client_eta (c : Ec2Client) (sp : List (List SnapshotRecord))
    (ip : List (List ImageRecord)) (h1 : c.describeSnapshotsPages = Except.ok sp)
    (h2 : c.describeImagesPages = Except.ok ip) (fs : FsState) :
    main c fs = main ⟨Except.ok sp, Except.ok ip, c.createTagsError⟩ fs := by
  obtain ⟨a, b, t⟩ := c
  dsimp only at h1 h2 ⊢
  subst h1
  subst h2
  rfl

/-- Whenever a run returns a set, that set is the set difference of the two
inventories the client provided. -/
theorem main_ok_result (c : Ec2Client) (fs : FsState) (sp : List (List SnapshotRecord))
    (ip : List (List ImageRecord)) (s : Finset String)
    (h1 : c.describeSnapshotsPages = Except.ok sp)
    (h2 : c.describeImagesPages = Except.ok ip)
    (hres : (main c fs).result = Except.ok s) :
    s = reconcile (list_snapshot sp) (list_ami ip) := by
  rw [main_client_eta c sp ip h1 h2 fs] at hres
  by_cases h : reconcile (list_snapshot sp) (list_ami ip) = ∅
  · rw [main_empty sp ip _ fs h] at hres
    simp at hres
    exact hres.symm
  · cases hct : c.createTagsError with
    | some e =>
      rw [hct, main_tag_error sp ip e fs h] at hres
      simp at hres
    | none =>
      rw [hct, main_tag_ok sp ip fs h] at hres
      cases hout : (export_text fs.exportFile fs.writeFail
          (reconcile (list_snapshot sp) (list_ami ip))).error with
      | some e =>
        rw [hout] at hres
        simp at hres
      | none =>
        rw [hout] at hres
        simp at hres
        exact hres.symm

/-- The event trace of a run is empty, a lone tag call, or a tag call followed
by the export write. -/
theorem main_events_shape (c : Ec2Client) (fs : FsState) (sp : List (List SnapshotRecord))
    (ip : List (List ImageRecord))
    (h1 : c.describeSnapshotsPages = Except.ok sp)
    (h2 : c.describeImagesPages = Except.ok ip) :
    (main c fs).events = [] ∨
      (main c fs).events =
        [Event.createTags (setIterList (reconcile (list_snapshot sp) (list_ami ip)))
          [("NotAttachedAMI", "True")]] ∨
      (main c fs).events =
        [Event.createTags (setIterList (reconcile (list_snapshot sp) (list_ami ip)))
            [("NotAttachedAMI", "True")],
          Event.fileWrite (export_text fs.exportFile fs.writeFail
            (reconcile (list_snapshot sp) (list_ami ip))).fileLines] := by
  rw [main_client_eta c sp ip h1 h2 fs]
  by_cases hemp : reconcile (list_snapshot sp) (list_ami ip) = ∅
  · rw [main_empty sp ip _ fs hemp]
    exact Or.inl rfl
  · cases hct : c.createTagsError with
    | some e =>
      rw [main_tag_error sp ip e fs hemp]
      exact Or.inr (Or.inl rfl)
    | none =>
      rw [main_tag_ok sp ip fs hemp]
      exact Or.inr (Or.inr rfl)

end Script

/-- Everything the export writes is an element of the exported set. -/
theorem export_text_fileLines_mem (prev : Option (List String))
    (plan : Option (Nat × PyError)) (s : Finset String) (x : String)
    (h : x ∈ (export_text prev plan s).fileLines) : x ∈ s := by
  unfold export_text at h
  rcases writeLoop_mem (setIterList s) [] plan x h with hw | hp
  · simp at hw
  · exact (mem_setIterList s x).mp hp

/-- An image-derived snapshot record of the snapshot inventory (fixture). -/
def exImageSnap : SnapshotRecord :=
  { snapshotId := some "snap-1",
    description := some "Created by CreateImage(i-0a) for ami-0b from vol-0c" }

/-- A manually created snapshot record (fixture). -/
def exManualSnap : SnapshotRecord :=
  { snapshotId := some "snap-2", description := some "manual backup" }

/-- A marker-matching snapshot record whose id field is missing (fixture). -/
def exNoIdSnap : SnapshotRecord :=
  { snapshotId := none,
    description := some "Created by CreateImage(i-0d) for ami-0e from vol-0f" }

/-- An image with one EBS-backed mapping and one mapping without an EBS-backed
device (fixture). -/
def exImage : ImageRecord :=
  { blockDeviceMappings := some
      [{ ebs := some { snapshotId := some "snap-9" } }, { ebs := none }] }

/-- Initial filesystem: no export file yet, all writes succeed (fixture). -/
def fsOk : FsState := { exportFile := none, writeFail := none }

/-- A healthy client: one orphan snapshot `snap-1`, tagging succeeds (fixture). -/
def clientOk : Ec2Client :=
  { describeSnapshotsPages := Except.ok [[exImageSnap, exManualSnap]],
    describeImagesPages := Except.ok [[exImage]],
    createTagsError := none }

/-- Same inventories as `clientOk` but `create_tags` fails (fixture). -/
def clientTagFail : Ec2Client :=
  { clientOk with createTagsError := some (PyError.raw "tag failure") }

/-- A client whose snapshot listing fails terminally (fixture). -/
def clientSnapFail : Ec2Client :=
  { describeSnapshotsPages := Except.error (PyError.raw "throttled"),
    describeImagesPages := Except.ok [[exImage]],
    createTagsError := none }

/-- A client whose image listing fails terminally (fixture). -/
def clientImageFail : Ec2Client :=
  { describeSnapshotsPages := Except.ok [[exImageSnap, exManualSnap]],
    describeImagesPages := Except.error (PyError.raw "throttled"),
    createTagsError := none }

/-- A client with no orphan snapshots (fixture). -/
def clientNoOrphans : Ec2Client :=
  { describeSnapshotsPages := Except.ok [[exManualSnap]],
    describeImagesPages := Except.ok [[exImage]],
    createTagsError := none }

/-- A client with an id-less marker-matching snapshot record and an image with
an EBS-less mapping (fixture). -/
def clientMaskedEmptyId : Ec2Client :=
  { describeSnapshotsPages := Except.ok [[exImageSnap, exNoIdSnap]],
    describeImagesPages := Except.ok [[exImage]],
    createTagsError := none }

/-- C2: a snapshot record's id enters the snapshot inventory exactly when its
description contains the substring "Created by CreateImage"; the spec's example
description is classified image-derived and "manual backup" is not. -/
theorem snapshot_marker_classification :
    (∀ (pages : List (List SnapshotRecord)) (s : String),
        s ∈ list_snapshot pages ↔
          ∃ page ∈ pages, ∃ r ∈ page,
            strContains (r.description.getD "") "Created by CreateImage" = true ∧
              r.snapshotId.getD "" = s) ∧
      strContains "Created by CreateImage(i-0123...) for ami-0123... from vol-0123..."
          "Created by CreateImage" = true ∧
      strContains "manual backup" "Created by CreateImage" = false :=
  ⟨mem_list_snapshot, by decide, by decide⟩

/-- C3: a block-device mapping with no EBS-backed device (no nested EBS
snapshot id) contributes no snapshot id to the referenced set: such a mapping
inserts only the empty-string sentinel, and every member of the referenced set
other than the sentinel is the nested EBS snapshot id of some mapping. -/
theorem ebsless_mapping_no_snapshot_id :
    (∀ (acc : Finset String) (b : BlockDeviceMapping),
        (b.ebs.getD { snapshotId := none }).snapshotId = none →
        blockStep acc b = insert "" acc) ∧
      ∀ (pages : List (List ImageRecord)) (s : String),
        s ∈ list_ami pages → s ≠ "" →
        ∃ page ∈ pages, ∃ ami ∈ page, ∃ b ∈ ami.blockDeviceMappings.getD [],
          ∃ eb, b.ebs = some eb ∧ eb.snapshotId = some s := by
  constructor
  · intro acc b h
    simp [blockStep, h]
  · intro pages s hs hne
    rw [mem_list_ami] at hs
    obtain ⟨page, hp, ami, ha, b, hb, heq⟩ := hs
    cases hebs : b.ebs with
    | none =>
      rw [hebs] at heq
      simp at heq
      exact absurd heq.symm hne
    | some eb =>
      rw [hebs] at heq
      rw [Option.getD_some] at heq
      cases hid : eb.snapshotId with
      | none =>
        rw [hid] at heq
        simp at heq
        exact absurd heq.symm hne
      | some v =>
        rw [hid] at heq
        simp at heq
        exact ⟨page, hp, ami, ha, b, hb, eb, hebs, by rw [hid, heq]⟩

/-- C3 witness: in the fixture inventory, `snap-9` is a non-sentinel member of
the referenced set, so it comes from an EBS-backed mapping. -/
theorem ebsless_mapping_no_snapshot_id_witness :
    ∃ page ∈ [[exImage]], ∃ ami ∈ page, ∃ b ∈ ami.blockDeviceMappings.getD [],
      ∃ eb, b.ebs = some eb ∧ eb.snapshotId = some "snap-9" :=
  ebsless_mapping_no_snapshot_id.2 [[exImage]] "snap-9" (by decide) (by decide)

/-- C7: the output sets of both inventory collectors are invariant under any
permutation of the page order and of records within pages: any such shuffle
permutes the flattened record sequence, and collectors whose flattened inputs
are permutations of each other produce equal sets. -/
theorem collectors_invariant_under_page_shuffle :
    (∀ p q : List (List SnapshotRecord), p.flatten.Perm q.flatten →
        list_snapshot p = list_snapshot q) ∧
      ∀ p q : List (List ImageRecord), p.flatten.Perm q.flatten →
        list_ami p = list_ami q := by
  constructor
  · intro p q h
    apply Finset.ext
    intro s
    rw [mem_list_snapshot_flatten, mem_list_snapshot_flatten]
    constructor
    · rintro ⟨r, hr, hp⟩
      exact ⟨r, h.mem_iff.mp hr, hp⟩
    · rintro ⟨r, hr, hp⟩
      exact ⟨r, h.mem_iff.mpr hr, hp⟩
  · intro p q h
    apply Finset.ext
    intro s
    rw [mem_list_ami_flatten, mem_list_ami_flatten]
    constructor
    · rintro ⟨ami, ha, hp⟩
      exact ⟨ami, h.mem_iff.mp ha, hp⟩
    · rintro ⟨ami, ha, hp⟩
      exact ⟨ami, h.mem_iff.mpr ha, hp⟩

/-- C7 witness: swapping the two pages of a concrete snapshot inventory leaves
the collected set unchanged. -/
theorem collectors_invariant_under_page_shuffle_witness :
    list_snapshot [[exImageSnap], [exManualSnap]] =
      list_snapshot [[exManualSnap], [exImageSnap]] :=
  collectors_invariant_under_page_shuffle.1 [[exImageSnap], [exManualSnap]]
    [[exManualSnap], [exImageSnap]] (by decide)

/-- C1: every set a run of `main` returns is the set difference of the
image-derived set and the referenced set, and `reconcile` satisfies
`reconcile A A = ∅`, `reconcile A ∅ = A` and `reconcile ∅ B = ∅`. -/
theorem main_reconciliation_is_set_difference :
    (∀ (c : Ec2Client) (fs : FsState) (sp : List (List SnapshotRecord))
        (ip : List (List ImageRecord)) (s : Finset String),
        c.describeSnapshotsPages = Except.ok sp →
        c.describeImagesPages = Except.ok ip →
        (Script.main c fs).result = Except.ok s →
        s = reconcile (list_snapshot sp) (list_ami ip)) ∧
      (∀ A : Finset String, reconcile A A = ∅) ∧
      (∀ A : Finset String, reconcile A ∅ = A) ∧
      ∀ B : Finset String, reconcile ∅ B = ∅ :=
  ⟨Script.main_ok_result, fun A => Finset.sdiff_self A,
    fun _ => Finset.sdiff_empty, fun B => Finset.empty_sdiff B⟩

/-- C1 witness: the healthy fixture run returns exactly the set difference of
its two inventories. -/
theorem main_reconciliation_is_set_difference_witness :
    ({"snap-1"} : Finset String) =
      reconcile (list_snapshot [[exImageSnap, exManualSnap]]) (list_ami [[exImage]]) :=
  main_reconciliation_is_set_difference.1 clientOk fsOk
    [[exImageSnap, exManualSnap]] [[exImage]] {"snap-1"} rfl rfl (by decide)

/-- C8: a run whose orphan set is empty issues no tag call and no file write
(the event trace is empty and the export artifact keeps its prior content) and
returns the empty set. -/
theorem empty_orphan_set_no_op (c : Ec2Client) (fs : FsState)
    (sp : List (List SnapshotRecord)) (ip : List (List ImageRecord))
    (h1 : c.describeSnapshotsPages = Except.ok sp)
    (h2 : c.describeImagesPages = Except.ok ip)
    (h : reconcile (list_snapshot sp) (list_ami ip) = ∅) :
    Script.main c fs =
      { result := Except.ok ∅, events := [], exportFile := fs.exportFile } := by
  rw [Script.main_client_eta c sp ip h1 h2 fs, Script.main_empty sp ip _ fs h, h]

/-- C8 witness: the orphan-free fixture run is a no-op returning the empty
set. -/
theorem empty_orphan_set_no_op_witness :
    Script.main clientNoOrphans fsOk =
      { result := Except.ok ∅, events := [], exportFile := none } :=
  empty_orphan_set_no_op clientNoOrphans fsOk [[exManualSnap]] [[exImage]]
    rfl rfl (by decide)

/-- C4 counterexample: with the fixture inventories the orphan set is the
non-empty `{snap-1}` and `create_tags` fails; `main` then raises the wrapped
error — the run fails but the orphan set is NOT returned to the caller,
contradicting the claim that it still is. -/
theorem tag_failure_no_return_counterexample :
    reconcile (list_snapshot [[exImageSnap, exManualSnap]]) (list_ami [[exImage]]) =
        {"snap-1"} ∧
      (Script.main clientTagFail fsOk).result =
        Except.error (PyError.wrapped mainMsg (PyError.raw "tag failure")) ∧
      (Script.main clientTagFail fsOk).result ≠ Except.ok {"snap-1"} := by
  refine ⟨by decide, by decide, by decide⟩

/-- C4 (amended): if the tag-creation call fails on a non-empty orphan set,
the run fails with the wrapped error and no orphan set is returned to the
caller (`main` raises instead of returning). -/
theorem tag_failure_raises_no_return (c : Ec2Client) (fs : FsState)
    (sp : List (List SnapshotRecord)) (ip : List (List ImageRecord)) (e : PyError)
    (h1 : c.describeSnapshotsPages = Except.ok sp)
    (h2 : c.describeImagesPages = Except.ok ip)
    (h : reconcile (list_snapshot sp) (list_ami ip) ≠ ∅)
    (hct : c.createTagsError = some e) :
    (Script.main c fs).result = Except.error (PyError.wrapped mainMsg e) ∧
      ∀ s : Finset String, (Script.main c fs).result ≠ Except.ok s := by
  rw [Script.main_client_eta c sp ip h1 h2 fs, hct,
    Script.main_tag_error sp ip e fs h]
  exact ⟨rfl, fun s hs => by simp at hs⟩

/-- C4 witness: the failing-tag fixture run raises the wrapped error. -/
theorem tag_failure_raises_no_return_witness :
    (Script.main clientTagFail fsOk).result =
      Except.error (PyError.wrapped mainMsg (PyError.raw "tag failure")) :=
  (tag_failure_raises_no_return clientTagFail fsOk [[exImageSnap, exManualSnap]]
    [[exImage]] (PyError.raw "tag failure") rfl rfl (by decide) rfl).1

/-- C5: on a non-empty orphan set the first side effect of the run is the tag
call, and if the tag call fails no file write event occurs and the export
artifact keeps its prior content — the export artifact is only ever written
after the tag call was attempted. -/
theorem tagging_attempted_before_export (c : Ec2Client) (fs : FsState)
    (sp : List (List SnapshotRecord)) (ip : List (List ImageRecord))
    (h1 : c.describeSnapshotsPages = Except.ok sp)
    (h2 : c.describeImagesPages = Except.ok ip)
    (h : reconcile (list_snapshot sp) (list_ami ip) ≠ ∅) :
    (Script.main c fs).events.head? =
        some (Event.createTags (setIterList (reconcile (list_snapshot sp) (list_ami ip)))
          [("NotAttachedAMI", "True")]) ∧
      ∀ e, c.createTagsError = some e →
        (Script.main c fs).exportFile = fs.exportFile ∧
          ∀ lines, Event.fileWrite lines ∉ (Script.main c fs).events := by
  rw [Script.main_client_eta c sp ip h1 h2 fs]
  constructor
  · cases hct : c.createTagsError with
    | some e => rw [Script.main_tag_error sp ip e fs h]; rfl
    | none => rw [Script.main_tag_ok sp ip fs h]; rfl
  · intro e hct
    rw [hct, Script.main_tag_error sp ip e fs h]
    exact ⟨rfl, fun lines hmem => by simp at hmem⟩

/-- C5 witness: the failing-tag fixture run's first event is the tag call. -/
theorem tagging_attempted_before_export_witness :
    (Script.main clientTagFail fsOk).events.head? =
      some (Event.createTags
        (setIterList (reconcile (list_snapshot [[exImageSnap, exManualSnap]])
          (list_ami [[exImage]])))
        [("NotAttachedAMI", "True")]) :=
  (tagging_attempted_before_export clientTagFail fsOk [[exImageSnap, exManualSnap]]
    [[exImage]] rfl rfl (by decide)).1

/-- C6 counterexample: a run whose snapshot listing fails and a run whose
image listing fails (with the same underlying error) produce identical wrapped
errors — the single wrapper message "メイン関数エラー" does not identify which
inventory failed, contradicting the claim that enumeration failures are
wrapped with context identifying snapshot vs. image. -/
theorem inventory_error_wrap_counterexample :
    (Script.main clientSnapFail fsOk).result =
        Except.error (PyError.wrapped mainMsg (PyError.raw "throttled")) ∧
      (Script.main clientImageFail fsOk).result =
        Except.error (PyError.wrapped mainMsg (PyError.raw "throttled")) ∧
      Script.main clientSnapFail fsOk = Script.main clientImageFail fsOk := by
  refine ⟨by decide, by decide, by decide⟩

/-- C6 (amended): every error raised inside a run is wrapped before being
re-raised, but always with the single fixed message "メイン関数エラー" — the
wrapper does not identify which phase or inventory failed. -/
theorem run_errors_wrapped_with_main_message (c : Ec2Client) (fs : FsState)
    (e' : PyError) (h : (Script.main c fs).result = Except.error e') :
    ∃ e : PyError, e' = PyError.wrapped mainMsg e := by
  obtain ⟨csp, cip, cte⟩ := c
  cases csp with
  | error e =>
    rw [Script.main_snap_error] at h
    simp at h
    exact ⟨e, h.symm⟩
  | ok sp =>
    cases cip with
    | error e =>
      rw [Script.main_img_error] at h
      simp at h
      exact ⟨e, h.symm⟩
    | ok ip =>
      by_cases hemp : reconcile (list_snapshot sp) (list_ami ip) = ∅
      · rw [Script.main_empty sp ip cte fs hemp] at h
        simp at h
      · cases cte with
        | some e =>
          rw [Script.main_tag_error sp ip e fs hemp] at h
          simp at h
          exact ⟨e, h.symm⟩
        | none =>
          rw [Script.main_tag_ok sp ip fs hemp] at h
          cases hout : (export_text fs.exportFile fs.writeFail
              (reconcile (list_snapshot sp) (list_ami ip))).error with
          | some e =>
            rw [hout] at h
            simp at h
            exact ⟨e, h.symm⟩
          | none =>
            rw [hout] at h
            simp at h

/-- C6 witness: the failed snapshot listing of the fixture surfaces as an
error wrapped with the generic main message. -/
theorem run_errors_wrapped_with_main_message_witness :
    ∃ e : PyError,
      PyError.wrapped mainMsg (PyError.raw "throttled") = PyError.wrapped mainMsg e :=
  run_errors_wrapped_with_main_message clientSnapFail fsOk
    (PyError.wrapped mainMsg (PyError.raw "throttled")) (by decide)

/-- C9: for a non-empty orphan set, the export opens the artifact truncating
(the outcome is independent of the previous content), releases the file handle
on every exit path including a failing write, and on success writes exactly
one id per line, the multiset of written lines being the orphan set. -/
theorem export_truncating_write_one_id_per_line
    (prev prev' : Option (List String)) (plan : Option (Nat × PyError))
    (s : Finset String) (_hne : s.Nonempty) :
    (export_text prev plan s).handleReleased = true ∧
      export_text prev plan s = export_text prev' plan s ∧
      (plan = none →
        (export_text prev plan s).error = none ∧
          ((export_text prev plan s).fileLines : Multiset String) = s.val) := by
  refine ⟨rfl, rfl, ?_⟩
  rintro rfl
  have hw := writeLoop_none (setIterList s) []
  constructor
  · show (writeLoop [] (setIterList s) none).1 = none
    rw [hw]
  · show ((writeLoop [] (setIterList s) none).2 : Multiset String) = s.val
    rw [hw]
    simp [coe_setIterList]

/-- C9 witness: exporting the concrete orphan set `{snap-1}` writes the single
line `snap-1`, whatever the file previously contained. -/
theorem export_truncating_write_one_id_per_line_witness :
    ((Finset.Nonempty ({"snap-1"} : Finset String)) ∧
      (export_text (some ["old-line"]) none {"snap-1"}).handleReleased = true ∧
      export_text (some ["old-line"]) none {"snap-1"} = export_text none none {"snap-1"} ∧
      ((export_text (some ["old-line"]) none {"snap-1"}).error = none ∧
        ((export_text (some ["old-line"]) none {"snap-1"}).fileLines : Multiset String) =
          ({"snap-1"} : Finset String).val)) := by
  have hne : Finset.Nonempty ({"snap-1"} : Finset String) := ⟨"snap-1", by decide⟩
  have h := export_truncating_write_one_id_per_line (some ["old-line"]) none none
    ({"snap-1"} : Finset String) hne
  exact ⟨hne, h.1, h.2.1, h.2.2 rfl⟩

/-- C10: if some owned image has a block-device mapping lacking an EBS snapshot
id, the empty string is in the referenced set, hence never in the orphan set a
run returns; any marker-matching snapshot record with a missing id (collected
as the empty string) is thereby silently masked — the empty string appears in
no tag call and in no exported line. -/
theorem empty_string_id_masked (c : Ec2Client) (fs : FsState)
    (sp : List (List SnapshotRecord)) (ip : List (List ImageRecord))
    (h1 : c.describeSnapshotsPages = Except.ok sp)
    (h2 : c.describeImagesPages = Except.ok ip)
    (hex : ∃ page ∈ ip, ∃ ami ∈ page, ∃ b ∈ ami.blockDeviceMappings.getD [],
      (b.ebs.getD { snapshotId := none }).snapshotId = none) :
    "" ∈ list_ami ip ∧
      "" ∉ reconcile (list_snapshot sp) (list_ami ip) ∧
      (∀ s : Finset String, (Script.main c fs).result = Except.ok s → "" ∉ s) ∧
      (∀ ids tags, Event.createTags ids tags ∈ (Script.main c fs).events → "" ∉ ids) ∧
      ∀ lines, Event.fileWrite lines ∈ (Script.main c fs).events → "" ∉ lines := by
  have hmem : "" ∈ list_ami ip := by
    rw [mem_list_ami]
    obtain ⟨page, hp, ami, ha, b, hb, hnone⟩ := hex
    exact ⟨page, hp, ami, ha, b, hb, by rw [hnone]; rfl⟩
  have hnotorph : "" ∉ reconcile (list_snapshot sp) (list_ami ip) := by
    simp [reconcile, Finset.mem_sdiff, hmem]
  refine ⟨hmem, hnotorph, ?_, ?_, ?_⟩
  · intro s hres hcontra
    rw [Script.main_ok_result c fs sp ip s h1 h2 hres] at hcontra
    exact hnotorph hcontra
  · intro ids tags hmemEv hcontra
    rcases Script.main_events_shape c fs sp ip h1 h2 with hsh | hsh | hsh <;>
      rw [hsh] at hmemEv
    · simp at hmemEv
    · simp at hmemEv
      rw [hmemEv.1] at hcontra
      exact hnotorph ((mem_setIterList _ "").mp hcontra)
    · simp at hmemEv
      rw [hmemEv.1] at hcontra
      exact hnotorph ((mem_setIterList _ "").mp hcontra)
  · intro lines hmemEv hcontra
    rcases Script.main_events_shape c fs sp ip h1 h2 with hsh | hsh | hsh <;>
      rw [hsh] at hmemEv
    · simp at hmemEv
    · simp at hmemEv
    · simp at hmemEv
      rw [hmemEv] at hcontra
      exact hnotorph (export_text_fileLines_mem fs.exportFile fs.writeFail _ "" hcontra)

/-- C10 witness: in the fixture with an id-less marker record and an EBS-less
mapping, the empty string is referenced and is not an orphan. -/
theorem empty_string_id_masked_witness :
    "" ∈ list_ami [[exImage]] ∧
      "" ∉ reconcile (list_snapshot [[exImageSnap, exNoIdSnap]]) (list_ami [[exImage]]) := by
  have h := empty_string_id_masked clientMaskedEmptyId fsOk
    [[exImageSnap, exNoIdSnap]] [[exImage]] rfl rfl (by decide)
  exact ⟨h.1, h.2.1⟩
